import Mathlib

/-!
Shallow embedding of `src/apps/python-api/main.py`, the single FastAPI
service of the kubernetes-homelab-project repository, together with proofs
about its handlers.

Modelling conventions:
* A FastAPI handler either returns a JSON payload (HTTP 200) or raises an
  `HTTPException`; this is the `HandlerResult` type below.
* Python exceptions that can flow through a `try`/`except Exception` block
  are the `PyExn` type: `PyExn.http` is a raised `fastapi.HTTPException`
  (which is a subclass of `Exception`), `PyExn.client` is an exception
  raised by a backend client library (psycopg2 / redis / pika).
* Whether each backend connection attempt and each backend operation
  succeeds is recorded in a `BackendEnv` of booleans; the handlers are
  deterministic functions of that environment, the explicit state of the
  backends, and the clock.
* The clock reading (`datetime.utcnow()`) is a natural number; `timestamp()`
  and `isoformat()` are both injective functions of the instant, so a single
  `now : Nat` stands for the instant read during a request.
* Redis is a list of (key, value, absolute expiry) triples; RabbitMQ is the
  list of declared queues and published (routing key, body) pairs; the
  PostgreSQL `users` table is a list of rows; the semantics of
  `SET key value EX 3600`, `GET key`, `queue_declare`, `basic_publish` and
  `SELECT * FROM users ORDER BY created_at DESC LIMIT 10` are embedded from
  the documented behaviour of those external systems.
* The two process-wide Prometheus metrics (`REQUEST_COUNT`, a counter
  labelled by method and endpoint, and `REQUEST_DURATION`, a histogram) are
  the `Metrics` state: the counter value per label, and the number of
  histogram observations made.
-/

namespace HomelabAPI

/-- An HTTP error as carried by `fastapi.HTTPException`: status code and
detail string. -/
structure HTTPError where
  status : Nat
  detail : String
deriving DecidableEq

/-- A Python exception that a handler's `except Exception` clause can catch:
either a raised `fastapi.HTTPException` (a subclass of `Exception`) or an
exception raised by a backend client library. -/
inductive PyExn where
  | http (e : HTTPError)
  | client
deriving DecidableEq

/-- Outcome of one handler invocation: a JSON payload returned with
HTTP 200, or an uncaught `HTTPException`. -/
inductive HandlerResult (α : Type) where
  | ok (payload : α)
  | err (e : HTTPError)
deriving DecidableEq

/-- HTTP status code of a handler outcome. -/
def HandlerResult.statusCode : HandlerResult α → Nat
  | .ok _ => 200
  | .err e => e.status

/-- Which backend connection attempts and backend operations succeed during
one request.  `dbConnects` is `psycopg2.connect`, `redisConnects` is
`redis.Redis` together with the `r.ping()` inside `get_redis_connection`,
`rabbitConnects` is `pika.BlockingConnection`.  The remaining flags are the
individual backend operations performed after a connection was obtained. -/
structure BackendEnv where
  dbConnects : Bool
  redisConnects : Bool
  rabbitConnects : Bool
  dbExecOk : Bool
  redisPingOk : Bool
  rabbitCloseOk : Bool
  publishOk : Bool
  cacheGetOk : Bool
  cacheSetOk : Bool
  queryOk : Bool
deriving DecidableEq

/-- `get_db_connection` (main.py:39): returns a connection handle, or `None`
when `psycopg2.connect` raises; the exception is logged, not propagated. -/
def get_db_connection (env : BackendEnv) : Option Unit :=
  if env.dbConnects then some () else none

/-- `get_redis_connection` (main.py:54): returns a client handle, or `None`
when constructing the client or the initial `r.ping()` raises. -/
def get_redis_connection (env : BackendEnv) : Option Unit :=
  if env.redisConnects then some () else none

/-- `get_rabbitmq_connection` (main.py:67): returns a connection, or `None`
when `pika.BlockingConnection` raises. -/
def get_rabbitmq_connection (env : BackendEnv) : Option Unit :=
  if env.rabbitConnects then some () else none

/-- State of the two process-wide Prometheus metrics (main.py:20-21):
the value of the `http_requests_total` counter for each
(method, endpoint) label pair, and the number of observations made on the
`http_request_duration_seconds` histogram. -/
structure Metrics where
  requestCount : String × String → Nat
  durationCount : Nat

/-- `REQUEST_COUNT.labels(method=..., endpoint=...).inc()`: adds one to the
counter at the given label, leaving all other labels and the histogram
unchanged. -/
def incRequestCount (m : Metrics) (method endpoint : String) : Metrics :=
  { m with
    requestCount := fun l =>
      if l = (method, endpoint) then m.requestCount l + 1 else m.requestCount l }

/-- Contents of the external redis instance: (key, value, absolute expiry
time in seconds) triples; a key occurs at most once in observable reads
because `redisSet` removes prior entries for the key. -/
abbrev CacheState := List (String × String × Nat)

/-- Redis `GET key` observed at time `now`: the stored value if the key is
present and not yet expired, otherwise `None`. -/
def redisGet (st : CacheState) (key : String) (now : Nat) : Option String :=
  match st.find? (fun e => e.1 == key) with
  | some e => if now < e.2.2 then some e.2.1 else none
  | none => none

/-- Redis `SET key value EX ttl` issued at a moment when the expiry computes
to `expiry`: stores the value under the key with that absolute expiry,
overwriting any previous entry for the key. -/
def redisSet (st : CacheState) (key value : String) (expiry : Nat) : CacheState :=
  (key, value, expiry) :: st.filter (fun e => !(e.1 == key))

/-- Response body of `GET /cache/{key}` on success (main.py:218). -/
structure CacheGetResponse where
  key : String
  value : String
deriving DecidableEq

/-- Response body of `POST /cache/{key}` on success (main.py:233). -/
structure CacheSetResponse where
  key : String
  value : String
  status : String
deriving DecidableEq

/-- The `try` block of `get_cache` (main.py:214-218): calls
`redis_conn.get(key)` (which can itself raise a client exception); when the
call returns `None` it raises `HTTPException(404, "Key not found")` from
inside the block; otherwise it returns the key/value payload. -/
def get_cache_try (env : BackendEnv) (st : CacheState) (now : Nat) (key : String) :
    Except PyExn CacheGetResponse :=
  if env.cacheGetOk then
    match redisGet st key now with
    | none => .error (.http ⟨404, "Key not found"⟩)
    | some v => .ok ⟨key, v⟩
  else
    .error .client

/-- `get_cache` handler for `GET /cache/{key}` (main.py:206-221).  Increments
the request counter, returns 503 when `get_redis_connection` returned `None`,
and otherwise runs the `try` block.  The `except Exception` clause
(main.py:219) catches every exception raised in the block — including the
`HTTPException(404)` for a missing key, since `HTTPException` subclasses
`Exception` — and replaces it with
`HTTPException(500, "Failed to get cache value")`.  The cache state is
returned unchanged on every path. -/
def get_cache (env : BackendEnv) (m : Metrics) (st : CacheState) (now : Nat)
    (key : String) : Metrics × CacheState × HandlerResult CacheGetResponse :=
  let m' := incRequestCount m "GET" "/cache"
  match get_redis_connection env with
  | none => (m', st, .err ⟨503, "Redis service unavailable"⟩)
  | some _ =>
    match get_cache_try env st now key with
    | .ok r => (m', st, .ok r)
    | .error _ => (m', st, .err ⟨500, "Failed to get cache value"⟩)

/-- `set_cache` handler for `POST /cache/{key}` (main.py:223-236).  Increments
the request counter, returns 503 when `get_redis_connection` returned `None`;
otherwise issues `redis_conn.set(key, value, ex=3600)` — one hour expiry —
and returns the confirmation echo; if the set call raises, the
`except Exception` clause returns 500 and the store is unchanged. -/
def set_cache (env : BackendEnv) (m : Metrics) (st : CacheState) (now : Nat)
    (key value : String) : Metrics × CacheState × HandlerResult CacheSetResponse :=
  let m' := incRequestCount m "POST" "/cache"
  match get_redis_connection env with
  | none => (m', st, .err ⟨503, "Redis service unavailable"⟩)
  | some _ =>
    if env.cacheSetOk then
      (m', redisSet st key value (now + 3600), .ok ⟨key, value, "set"⟩)
    else
      (m', st, .err ⟨500, "Failed to set cache value"⟩)

/-- Request body of `POST /messages` (main.py:93-95): free-text message and a
priority label whose pydantic default is `"normal"`. -/
structure MessageRequest where
  message : String
  priority : String := "normal"
deriving DecidableEq

/-- Response body of `POST /messages` on success (main.py:97-101). -/
structure MessageResponse where
  id : String
  message : String
  status : String
  timestamp : Nat
deriving DecidableEq

/-- The JSON envelope published to the queue (main.py:178-183). -/
structure MessageBody where
  id : String
  message : String
  priority : String
  timestamp : Nat
deriving DecidableEq

/-- State of the external RabbitMQ broker: the queues declared so far (most
recent first; `queue_declare` is idempotent on the broker, so a repeated name
is harmless) and the published (routing key, envelope) pairs, most recent
first.  All declares and publishes here are durable/persistent, matching
`durable=True` and `delivery_mode=2` in the source. -/
structure BrokerState where
  declared : List String
  published : List (String × MessageBody)
deriving DecidableEq

/-- Decimal digit character for a digit below ten. -/
def digitChar (d : Nat) : Char :=
  match d with
  | 0 => '0' | 1 => '1' | 2 => '2' | 3 => '3' | 4 => '4'
  | 5 => '5' | 6 => '6' | 7 => '7' | 8 => '8' | 9 => '9'
  | _ => '*'

/-- Decimal rendering of a clock reading, modelling how the Python f-string
renders `datetime.utcnow().timestamp()` in `f"msg_{...}"` (main.py:177):
distinct readings render to distinct digit strings. -/
def pyDecimal (n : Nat) : String :=
  ((Nat.digits 10 n).map digitChar).reverse.asString

/-- The generated message identifier `f"msg_{datetime.utcnow().timestamp()}"`
(main.py:177): a function of the clock reading alone. -/
def message_id (now : Nat) : String :=
  "msg_" ++ pyDecimal now

/-- `send_message` handler for `POST /messages` (main.py:161-204).  Increments
the request counter, returns 503 when `get_rabbitmq_connection` returned
`None`; otherwise declares the queue `f"messages_{priority}"`, publishes the
JSON envelope to it, and returns the response; if any channel operation
raises, the `except Exception` clause returns 500. -/
def send_message (env : BackendEnv) (m : Metrics) (bs : BrokerState) (now : Nat)
    (req : MessageRequest) : Metrics × BrokerState × HandlerResult MessageResponse :=
  let m' := incRequestCount m "POST" "/messages"
  match get_rabbitmq_connection env with
  | none => (m', bs, .err ⟨503, "RabbitMQ service unavailable"⟩)
  | some _ =>
    if env.publishOk then
      let queue_name := "messages_" ++ req.priority
      let body : MessageBody := ⟨message_id now, req.message, req.priority, now⟩
      (m',
       { declared := queue_name :: bs.declared,
         published := (queue_name, body) :: bs.published },
       .ok ⟨message_id now, req.message, "sent", now⟩)
    else
      (m', bs, .err ⟨500, "Failed to send message"⟩)

/-- One row of the external `users` table: its `created_at` column and the
remaining columns, opaque to this service. -/
structure UserRow where
  created_at : Nat
  fields : List (String × String)
deriving DecidableEq

/-- Ordering used by `ORDER BY created_at DESC`: newer (larger `created_at`)
rows come first. -/
def createdDesc (a b : UserRow) : Prop :=
  b.created_at ≤ a.created_at

instance : DecidableRel createdDesc := fun a b =>
  inferInstanceAs (Decidable (b.created_at ≤ a.created_at))

instance : IsTotal UserRow createdDesc :=
  ⟨fun a b => (Nat.le_total b.created_at a.created_at).imp id id⟩

instance : IsTrans UserRow createdDesc :=
  ⟨fun _ _ _ hab hbc => Nat.le_trans hbc hab⟩

/-- Result set of `SELECT * FROM users ORDER BY created_at DESC LIMIT 10`
(main.py:248) against table contents `db`: rows sorted newest first, first
ten kept. -/
def usersQuery (db : List UserRow) : List UserRow :=
  (db.insertionSort createdDesc).take 10

/-- Response body of `GET /database/users` on success (main.py:251). -/
structure UsersResponse where
  users : List UserRow
deriving DecidableEq

/-- `get_users` handler for `GET /database/users` (main.py:238-254).
Increments the request counter, returns 503 when `get_db_connection`
returned `None`; otherwise runs the fixed query and returns the rows
verbatim; if the query raises, the `except Exception` clause returns 500. -/
def get_users (env : BackendEnv) (m : Metrics) (db : List UserRow) :
    Metrics × HandlerResult UsersResponse :=
  let m' := incRequestCount m "GET" "/database/users"
  match get_db_connection env with
  | none => (m', .err ⟨503, "Database service unavailable"⟩)
  | some _ =>
    if env.queryOk then (m', .ok ⟨usersQuery db⟩)
    else (m', .err ⟨500, "Failed to get users"⟩)

/-- Response body of `GET /health` (main.py:86-91, 148-154): the `services`
dict is the three per-backend connectivity fields. -/
structure HealthResponse where
  status : String
  message : String
  timestamp : Nat
  version : String
  postgresql : String
  redis : String
  rabbitmq : String
deriving DecidableEq

/-- `health_check` handler for `GET /health` (main.py:109-154).  Every
backend starts as `"disconnected"`; each probe runs only when its accessor
returned a connection, and flips its own entry to `"connected"` when the
probe operation (`SELECT 1` / `ping` / `close`) does not raise; a probe
failure is logged and does not affect the other probes or the response.
Always returns the aggregate status `"healthy"`. -/
def health_check (env : BackendEnv) (m : Metrics) (now : Nat) :
    Metrics × HealthResponse :=
  let m' := incRequestCount m "GET" "/health"
  let pg := match get_db_connection env with
    | some _ => if env.dbExecOk then "connected" else "disconnected"
    | none => "disconnected"
  let rd := match get_redis_connection env with
    | some _ => if env.redisPingOk then "connected" else "disconnected"
    | none => "disconnected"
  let rb := match get_rabbitmq_connection env with
    | some _ => if env.rabbitCloseOk then "connected" else "disconnected"
    | none => "disconnected"
  (m',
   { status := "healthy", message := "API is running", timestamp := now,
     version := "1.0.0", postgresql := pg, redis := rd, rabbitmq := rb })

/-- Response body of `GET /` (main.py:107). -/
structure RootResponse where
  message : String
  version : String
deriving DecidableEq

/-- `root` handler for `GET /` (main.py:104-107). -/
def root (m : Metrics) : Metrics × RootResponse :=
  (incRequestCount m "GET" "/", ⟨"Kubernetes Homelab API", "1.0.0"⟩)

/-- `metrics` handler for `GET /metrics` (main.py:156-159): increments the
request counter, then `generate_latest` renders the current metrics state;
the response is that snapshot (taken after the increment). -/
def metrics_endpoint (m : Metrics) : Metrics × Metrics :=
  let m' := incRequestCount m "GET" "/metrics"
  (m', m')

/-- Full mutable state visible to the service: the process-wide metrics and
the three external backends. -/
structure ServerState where
  metrics : Metrics
  cache : CacheState
  broker : BrokerState
  db : List UserRow

/-- An inbound HTTP request to one of the seven endpoints. -/
inductive Request where
  | rootReq
  | healthReq
  | metricsReq
  | messagesReq (req : MessageRequest)
  | cacheGetReq (key : String)
  | cacheSetReq (key value : String)
  | usersReq
deriving DecidableEq

/-- The (method, endpoint) label each handler passes to
`REQUEST_COUNT.labels` in the source. -/
def Request.label : Request → String × String
  | .rootReq => ("GET", "/")
  | .healthReq => ("GET", "/health")
  | .metricsReq => ("GET", "/metrics")
  | .messagesReq _ => ("POST", "/messages")
  | .cacheGetReq _ => ("GET", "/cache")
  | .cacheSetReq _ _ => ("POST", "/cache")
  | .usersReq => ("GET", "/database/users")

/-- Rendered outcome of one request: the payload (by endpoint) or the
`HTTPException` the handler raised. -/
inductive Outcome where
  | rootOut (r : RootResponse)
  | healthOut (r : HealthResponse)
  | metricsOut (snapshot : Metrics)
  | messageOut (r : HandlerResult MessageResponse)
  | cacheGetOut (r : HandlerResult CacheGetResponse)
  | cacheSetOut (r : HandlerResult CacheSetResponse)
  | usersOut (r : HandlerResult UsersResponse)

/-- HTTP status code of an outcome. -/
def Outcome.status : Outcome → Nat
  | .rootOut _ => 200
  | .healthOut _ => 200
  | .metricsOut _ => 200
  | .messageOut r => r.statusCode
  | .cacheGetOut r => r.statusCode
  | .cacheSetOut r => r.statusCode
  | .usersOut r => r.statusCode

/-- Dispatch of one inbound request to its handler: the new server state and
the outcome.  `env` fixes which backend interactions succeed during this
request and `now` is the clock reading. -/
def handle (env : BackendEnv) (now : Nat) (s : ServerState) :
    Request → ServerState × Outcome
  | .rootReq =>
    let (m', r) := root s.metrics
    ({ s with metrics := m' }, .rootOut r)
  | .healthReq =>
    let (m', r) := health_check env s.metrics now
    ({ s with metrics := m' }, .healthOut r)
  | .metricsReq =>
    let (m', snap) := metrics_endpoint s.metrics
    ({ s with metrics := m' }, .metricsOut snap)
  | .messagesReq req =>
    let (m', bs', r) := send_message env s.metrics s.broker now req
    ({ s with metrics := m', broker := bs' }, .messageOut r)
  | .cacheGetReq key =>
    let (m', st', r) := get_cache env s.metrics s.cache now key
    ({ s with metrics := m', cache := st' }, .cacheGetOut r)
  | .cacheSetReq key value =>
    let (m', st', r) := set_cache env s.metrics s.cache now key value
    ({ s with metrics := m', cache := st' }, .cacheSetOut r)
  | .usersReq =>
    let (m', r) := get_users env s.metrics s.db
    ({ s with metrics := m' }, .usersOut r)

/-! Concrete fixtures used by witnesses and counterexamples. -/

/-- Metrics state with every counter at zero and no histogram observations,
as registered at process start (main.py:20-21). -/
def m0 : Metrics :=
  { requestCount := fun _ => 0, durationCount := 0 }

/-- Broker with no queues declared and nothing published. -/
def bs0 : BrokerState :=
  { declared := [], published := [] }

/-- Environment in which every backend connection and operation succeeds. -/
def envAll : BackendEnv :=
  ⟨true, true, true, true, true, true, true, true, true, true⟩

/-- Environment in which no backend connection can be established. -/
def envNone : BackendEnv :=
  ⟨false, false, false, true, true, true, true, true, true, true⟩

/-- Initial server state: fresh metrics, empty cache, empty broker, empty
`users` table. -/
def s0 : ServerState :=
  { metrics := m0, cache := [], broker := bs0, db := [] }

/-- Generated id carried by a successful publish response, `none` on an
error response. -/
def responseId : HandlerResult MessageResponse → Option String
  | .ok r => some r.id
  | .err _ => none

/-- A small `users` table whose rows are not in creation order. -/
def db0 : List UserRow :=
  [⟨1, []⟩, ⟨5, [("name", "a")]⟩, ⟨3, []⟩]

/-! Helper lemmas. -/

/-- The metrics component of `send_message` is the counter increment, on
every path. -/
theorem send_message_fst (env : BackendEnv) (m : Metrics) (bs : BrokerState)
    (now : Nat) (req : MessageRequest) :
    (send_message env m bs now req).1 = incRequestCount m "POST" "/messages" := by
  unfold send_message
  cases get_rabbitmq_connection env with
  | none => rfl
  | some u => dsimp only; split <;> rfl

/-- The metrics component of `get_cache` is the counter increment, on every
path. -/
theorem get_cache_fst (env : BackendEnv) (m : Metrics) (st : CacheState)
    (now : Nat) (key : String) :
    (get_cache env m st now key).1 = incRequestCount m "GET" "/cache" := by
  unfold get_cache
  cases get_redis_connection env with
  | none => rfl
  | some u =>
    dsimp only
    cases get_cache_try env st now key with
    | ok r => rfl
    | error e => rfl

/-- The metrics component of `set_cache` is the counter increment, on every
path. -/
theorem set_cache_fst (env : BackendEnv) (m : Metrics) (st : CacheState)
    (now : Nat) (key value : String) :
    (set_cache env m st now key value).1 = incRequestCount m "POST" "/cache" := by
  unfold set_cache
  cases get_redis_connection env with
  | none => rfl
  | some u => dsimp only; split <;> rfl

/-- The metrics component of `get_users` is the counter increment, on every
path. -/
theorem get_users_fst (env : BackendEnv) (m : Metrics) (db : List UserRow) :
    (get_users env m db).1 = incRequestCount m "GET" "/database/users" := by
  unfold get_users
  cases get_db_connection env with
  | none => rfl
  | some u => dsimp only; split <;> rfl

/-- The counter at the incremented label gains one. -/
theorem incRequestCount_self (m : Metrics) (method endpoint : String) :
    (incRequestCount m method endpoint).requestCount (method, endpoint) =
      m.requestCount (method, endpoint) + 1 := by
  simp [incRequestCount]

/-- The counter at any other label is untouched. -/
theorem incRequestCount_other (m : Metrics) (method endpoint : String)
    (l : String × String) (h : l ≠ (method, endpoint)) :
    (incRequestCount m method endpoint).requestCount l = m.requestCount l := by
  simp [incRequestCount, h]

/-- The histogram is untouched by a counter increment. -/
theorem incRequestCount_durationCount (m : Metrics) (method endpoint : String) :
    (incRequestCount m method endpoint).durationCount = m.durationCount := rfl

/-- `digitChar` is injective on digits below ten. -/
theorem digitChar_inj_lt : ∀ d1, d1 < 10 → ∀ d2, d2 < 10 →
    digitChar d1 = digitChar d2 → d1 = d2 := by decide

/-- Mapping `digitChar` over digit lists is injective. -/
theorem map_digitChar_inj : ∀ l1 l2 : List Nat, (∀ d ∈ l1, d < 10) →
    (∀ d ∈ l2, d < 10) → l1.map digitChar = l2.map digitChar → l1 = l2 := by
  intro l1
  induction l1 with
  | nil =>
    intro l2 _ _ h
    cases l2 with
    | nil => rfl
    | cons b t => simp at h
  | cons a t ih =>
    intro l2 h1 h2 h
    cases l2 with
    | nil => simp at h
    | cons b t2 =>
      simp only [List.map_cons, List.cons.injEq] at h
      have ha : a < 10 := h1 a (List.mem_cons_self a t)
      have hb : b < 10 := h2 b (List.mem_cons_self b t2)
      have hab : a = b := digitChar_inj_lt a ha b hb h.1
      subst hab
      have ht : t = t2 :=
        ih t2 (fun d hd => h1 d (List.mem_cons_of_mem _ hd))
          (fun d hd => h2 d (List.mem_cons_of_mem _ hd)) h.2
      rw [ht]

/-- Distinct clock readings render to distinct decimal strings. -/
theorem pyDecimal_inj {n1 n2 : Nat} (h : pyDecimal n1 = pyDecimal n2) :
    n1 = n2 := by
  unfold pyDecimal at h
  rw [List.asString_inj] at h
  have h2 := List.reverse_injective h
  have h3 := map_digitChar_inj _ _
    (fun d hd => Nat.digits_lt_base (by norm_num) hd)
    (fun d hd => Nat.digits_lt_base (by norm_num) hd) h2
  exact Nat.digits_inj_iff.mp h3

/-- Distinct clock readings produce distinct generated message ids. -/
theorem message_id_inj {n1 n2 : Nat} (h : message_id n1 = message_id n2) :
    n1 = n2 := by
  unfold message_id at h
  have hd := congrArg String.data h
  simp only [String.data_append] at hd
  have hc := List.append_cancel_left hd
  exact pyDecimal_inj (String.ext hc)

/-- Reading a key straight after writing it, before the expiry, yields the
written value. -/
theorem redisGet_redisSet_self (st : CacheState) (key value : String)
    (expiry t : Nat) (h : t < expiry) :
    redisGet (redisSet st key value expiry) key t = some value := by
  simp [redisGet, redisSet, List.find?_cons_of_pos, h]

/-- On every request the metrics state changes by exactly one counter
increment at the handler's own label. -/
theorem handle_metrics (env : BackendEnv) (now : Nat) (s : ServerState)
    (r : Request) :
    (handle env now s r).1.metrics =
      incRequestCount s.metrics r.label.1 r.label.2 := by
  cases r with
  | rootReq => rfl
  | healthReq => rfl
  | metricsReq => rfl
  | messagesReq req =>
    have hm := send_message_fst env s.metrics s.broker now req
    rcases hsm : send_message env s.metrics s.broker now req with ⟨m', bs', r2⟩
    rw [hsm] at hm
    simpa [handle, hsm, Request.label] using hm
  | cacheGetReq key =>
    have hm := get_cache_fst env s.metrics s.cache now key
    rcases hsm : get_cache env s.metrics s.cache now key with ⟨m', st', r2⟩
    rw [hsm] at hm
    simpa [handle, hsm, Request.label] using hm
  | cacheSetReq key value =>
    have hm := set_cache_fst env s.metrics s.cache now key value
    rcases hsm : set_cache env s.metrics s.cache now key value with ⟨m', st', r2⟩
    rw [hsm] at hm
    simpa [handle, hsm, Request.label] using hm
  | usersReq =>
    have hm := get_users_fst env s.metrics s.db
    rcases hsm : get_users env s.metrics s.db with ⟨m', r2⟩
    rw [hsm] at hm
    simpa [handle, hsm, Request.label] using hm

/-! Claim theorems. -/

/-- C1: evaluation at the failing input.  With the cache reachable, the
`GET` call succeeding and the key `"foo"` absent (empty cache), the `try`
block of `get_cache` raises the intended `HTTPException(404, "Key not
found")`, but the handler's `except Exception` clause catches it (an
`HTTPException` is an `Exception`) and the response actually produced is the
generic 500, not the 404 the claim and the code's own detail string
describe. -/
theorem get_cache_missing_key_gives_500 :
    get_cache_try envAll [] 0 "foo" = .error (.http ⟨404, "Key not found"⟩)
    ∧ (get_cache envAll m0 [] 0 "foo").2.2 =
        .err ⟨500, "Failed to get cache value"⟩
    ∧ (get_cache envAll m0 [] 0 "foo").2.2.statusCode = 500 :=
  ⟨rfl, rfl, rfl⟩

/-- C2: `GET /health` always answers HTTP 200 with aggregate status
`"healthy"`, and each backend's connectivity entry is `"connected"` exactly
when its own connection attempt and its own probe operation succeed,
independently of the other two backends. -/
theorem health_always_healthy (env : BackendEnv) (s : ServerState)
    (m : Metrics) (now : Nat) :
    ((handle env now s .healthReq).2).status = 200
    ∧ (health_check env m now).2.status = "healthy"
    ∧ (health_check env m now).2.postgresql =
        (if env.dbConnects && env.dbExecOk then "connected" else "disconnected")
    ∧ (health_check env m now).2.redis =
        (if env.redisConnects && env.redisPingOk then "connected" else "disconnected")
    ∧ (health_check env m now).2.rabbitmq =
        (if env.rabbitConnects && env.rabbitCloseOk then "connected" else "disconnected") := by
  refine ⟨rfl, rfl, ?_, ?_, ?_⟩
  · cases hc : env.dbConnects <;> cases ho : env.dbExecOk <;>
      simp [health_check, get_db_connection, hc, ho]
  · cases hc : env.redisConnects <;> cases ho : env.redisPingOk <;>
      simp [health_check, get_redis_connection, hc, ho]
  · cases hc : env.rabbitConnects <;> cases ho : env.rabbitCloseOk <;>
      simp [health_check, get_rabbitmq_connection, hc, ho]

/-- C3 counterexample: a handler invocation (a `GET /` request on the fresh
process state, with every backend healthy) after which the latency histogram
has not been incremented: it has zero observations before and after, so it is
not true that both metrics are incremented on every invocation. -/
theorem histogram_not_observed :
    (handle envAll 0 s0 .rootReq).1.metrics.durationCount = 0
    ∧ s0.metrics.durationCount = 0
    ∧ (handle envAll 0 s0 .rootReq).1.metrics.requestCount ("GET", "/") = 1 :=
  ⟨rfl, rfl, rfl⟩

/-- C3 amended: on every handler invocation (any of the seven endpoints, any
backend outcome) the process-wide request counter at the handler's
(method, endpoint) label grows by exactly one, every other label is
unchanged (so the counter is never reset), and the latency histogram —
registered at startup but never observed by any handler — is unchanged. -/
theorem request_counter_per_invocation (env : BackendEnv) (now : Nat)
    (s : ServerState) (r : Request) :
    (handle env now s r).1.metrics.requestCount r.label =
      s.metrics.requestCount r.label + 1
    ∧ (∀ l, l ≠ r.label →
        (handle env now s r).1.metrics.requestCount l =
          s.metrics.requestCount l)
    ∧ (handle env now s r).1.metrics.durationCount = s.metrics.durationCount := by
  rw [handle_metrics env now s r]
  refine ⟨?_, fun l hl => ?_, rfl⟩
  · simpa using incRequestCount_self s.metrics r.label.1 r.label.2
  · exact incRequestCount_other s.metrics r.label.1 r.label.2 l (by simpa using hl)

/-- C3 witness: the amended statement evaluated on a concrete invocation:
a `GET /` request on the fresh state increments its own counter label,
leaves the `/health` label at zero, and leaves the histogram untouched. -/
theorem request_counter_per_invocation_witness :
    (handle envAll 0 s0 .rootReq).1.metrics.requestCount ("GET", "/") =
      s0.metrics.requestCount ("GET", "/") + 1
    ∧ (handle envAll 0 s0 .rootReq).1.metrics.requestCount ("GET", "/health") =
        s0.metrics.requestCount ("GET", "/health")
    ∧ (handle envAll 0 s0 .rootReq).1.metrics.durationCount =
        s0.metrics.durationCount :=
  ⟨(request_counter_per_invocation envAll 0 s0 .rootReq).1,
   (request_counter_per_invocation envAll 0 s0 .rootReq).2.1
     ("GET", "/health") (by decide),
   (request_counter_per_invocation envAll 0 s0 .rootReq).2.2⟩

/-- C4 counterexample: two successful `POST /messages` requests handled at
the same clock reading — distinct requests, both answered with HTTP 200 —
receive the same generated identifier, because the id is a function of the
timestamp alone. -/
theorem same_timestamp_same_id :
    responseId (send_message envAll m0 bs0 5
        { message := "a", priority := "low" }).2.2 =
      responseId (send_message envAll m0 bs0 5
        { message := "b", priority := "high" }).2.2
    ∧ (send_message envAll m0 bs0 5
        { message := "a", priority := "low" }).2.2.statusCode = 200
    ∧ (send_message envAll m0 bs0 5
        { message := "b", priority := "high" }).2.2.statusCode = 200
    ∧ ({ message := "a", priority := "low" } : MessageRequest) ≠
        { message := "b", priority := "high" } :=
  ⟨rfl, rfl, rfl, by decide⟩

/-- C4 amended: two successful `POST /messages` requests whose clock
readings differ carry distinct generated identifiers (the id derivation
`msg_` followed by the decimal timestamp is injective in the reading);
requests sharing a clock reading share the identifier. -/
theorem distinct_timestamps_distinct_ids (env env' : BackendEnv)
    (m m' : Metrics) (bs bs' : BrokerState) (now now' : Nat)
    (req req' : MessageRequest)
    (hc : env.rabbitConnects = true) (hp : env.publishOk = true)
    (hc' : env'.rabbitConnects = true) (hp' : env'.publishOk = true)
    (hne : now ≠ now') :
    responseId (send_message env m bs now req).2.2 ≠
      responseId (send_message env' m' bs' now' req').2.2 := by
  have h1 : responseId (send_message env m bs now req).2.2 =
      some (message_id now) := by
    simp [send_message, get_rabbitmq_connection, hc, hp, responseId]
  have h2 : responseId (send_message env' m' bs' now' req').2.2 =
      some (message_id now') := by
    simp [send_message, get_rabbitmq_connection, hc', hp', responseId]
  rw [h1, h2]
  intro h
  exact hne (message_id_inj (Option.some.inj h))

/-- C4 witness: concrete successful publishes at clock readings 1 and 2 have
distinct response ids. -/
theorem distinct_timestamps_distinct_ids_witness :
    responseId (send_message envAll m0 bs0 1 { message := "x" }).2.2 ≠
      responseId (send_message envAll m0 bs0 2 { message := "x" }).2.2 :=
  distinct_timestamps_distinct_ids envAll envAll m0 m0 bs0 bs0 1 2
    { message := "x" } { message := "x" } rfl rfl rfl rfl (by decide)

/-- C5: a successful `POST /messages` with priority `p` declares exactly the
queue `messages_` followed by `p` and publishes its envelope to that queue,
for every string `p` (no validation restricts the priority), and an omitted
priority defaults to `"normal"`. -/
theorem send_message_queue_name (env : BackendEnv) (m : Metrics)
    (bs : BrokerState) (now : Nat) (req : MessageRequest)
    (hc : env.rabbitConnects = true) (hp : env.publishOk = true) :
    (send_message env m bs now req).2.1.declared =
      ("messages_" ++ req.priority) :: bs.declared
    ∧ (send_message env m bs now req).2.1.published =
        ("messages_" ++ req.priority,
          ⟨message_id now, req.message, req.priority, now⟩) :: bs.published
    ∧ (send_message env m bs now req).2.2 =
        .ok ⟨message_id now, req.message, "sent", now⟩
    ∧ (∀ msg : String, ({ message := msg } : MessageRequest).priority = "normal") := by
  refine ⟨?_, ?_, ?_, fun _ => rfl⟩ <;>
    simp [send_message, get_rabbitmq_connection, hc, hp]

/-- C5 witness: a concrete publish with priority `"high"` targets
`messages_high`, and a request built without a priority carries
`"normal"`. -/
theorem send_message_queue_name_witness :
    (send_message envAll m0 bs0 0
        { message := "hi", priority := "high" }).2.1.declared =
      ("messages_" ++ "high") :: bs0.declared
    ∧ ({ message := "hi" } : MessageRequest).priority = "normal" :=
  ⟨(send_message_queue_name envAll m0 bs0 0
      { message := "hi", priority := "high" } rfl rfl).1,
   (send_message_queue_name envAll m0 bs0 0
      { message := "hi", priority := "high" } rfl rfl).2.2.2 "hi"⟩

/-- C6: a successful `GET /database/users` returns exactly the query result:
at most ten rows, ordered by `created_at` descending, every returned row a
row of the table, unmodified. -/
theorem get_users_spec (env : BackendEnv) (m : Metrics) (db : List UserRow)
    (hc : env.dbConnects = true) (hq : env.queryOk = true) :
    (get_users env m db).2 = .ok ⟨usersQuery db⟩
    ∧ (usersQuery db).length ≤ 10
    ∧ List.Sorted createdDesc (usersQuery db)
    ∧ (∀ u ∈ usersQuery db, u ∈ db) := by
  refine ⟨?_, ?_, ?_, fun u hu => ?_⟩
  · simp [get_users, get_db_connection, hc, hq]
  · exact List.length_take_le 10 _
  · exact List.Pairwise.sublist (List.take_sublist _ _)
      (List.sorted_insertionSort createdDesc db)
  · exact (List.perm_insertionSort createdDesc db).subset
      (List.mem_of_mem_take hu)

/-- C6 witness: the statement evaluated on a concrete three-row table whose
rows are stored out of creation order. -/
theorem get_users_spec_witness :
    (get_users envAll m0 db0).2 = .ok ⟨usersQuery db0⟩
    ∧ (usersQuery db0).length ≤ 10
    ∧ List.Sorted createdDesc (usersQuery db0)
    ∧ (∀ u ∈ usersQuery db0, u ∈ db0) :=
  get_users_spec envAll m0 db0 rfl rfl

/-- C7: a successful `POST /cache/{key}` rewrites the store to hold `value`
under `key` with absolute expiry one hour (3600 s) after the write,
discarding any previous entry for the key — so a read at write time sees the
new value whatever was stored before — and returns the confirmation echo
`{key, value, status: "set"}`. -/
theorem set_cache_spec (env : BackendEnv) (m : Metrics) (st : CacheState)
    (now : Nat) (key value : String)
    (hc : env.redisConnects = true) (hs : env.cacheSetOk = true) :
    set_cache env m st now key value =
      (incRequestCount m "POST" "/cache", redisSet st key value (now + 3600),
        .ok ⟨key, value, "set"⟩)
    ∧ redisGet (redisSet st key value (now + 3600)) key now = some value := by
  constructor
  · simp [set_cache, get_redis_connection, hc, hs]
  · exact redisGet_redisSet_self st key value (now + 3600) now (by omega)

/-- C7 witness: a concrete write over an existing entry for the same key. -/
theorem set_cache_spec_witness :
    set_cache envAll m0 [("foo", "old", 50)] 0 "foo" "bar" =
      (incRequestCount m0 "POST" "/cache",
        redisSet [("foo", "old", 50)] "foo" "bar" 3600,
        .ok ⟨"foo", "bar", "set"⟩)
    ∧ redisGet (redisSet [("foo", "old", 50)] "foo" "bar" 3600) "foo" 0 =
        some "bar" :=
  set_cache_spec envAll m0 [("foo", "old", 50)] 0 "foo" "bar" rfl rfl

/-- C8: writing a key and reading it back at any time before the one-hour
expiry (with the cache reachable and both calls succeeding) returns exactly
the written value. -/
theorem cache_roundtrip (env : BackendEnv) (m m2 : Metrics) (st : CacheState)
    (now t : Nat) (key value : String)
    (hc : env.redisConnects = true) (hs : env.cacheSetOk = true)
    (hg : env.cacheGetOk = true) (ht : t < now + 3600) :
    (get_cache env m2 (set_cache env m st now key value).2.1 t key).2.2 =
      .ok ⟨key, value⟩ := by
  have hst : (set_cache env m st now key value).2.1 =
      redisSet st key value (now + 3600) := by
    simp [set_cache, get_redis_connection, hc, hs]
  rw [hst]
  simp [get_cache, get_redis_connection, hc, get_cache_try, hg,
    redisGet_redisSet_self st key value (now + 3600) t ht]

/-- C8 witness: a concrete write of `bar` under `foo` at time 0 read back at
time 10. -/
theorem cache_roundtrip_witness :
    (get_cache envAll m0 (set_cache envAll m0 [] 0 "foo" "bar").2.1
        10 "foo").2.2 = .ok ⟨"foo", "bar"⟩ :=
  cache_roundtrip envAll m0 m0 [] 0 10 "foo" "bar" rfl rfl rfl (by decide)

/-- C9: when a backend connection cannot be established, each accessor
returns the absence value `none` (no exception escapes), and each handler
that performs a backend operation answers 503 without touching the backend
state: the publish handler leaves the broker unchanged, the cache handlers
leave the store unchanged, the user listing runs no query.  (The health
handler, which reports availability rather than performing an operation,
answers 200 with the backend marked disconnected; see the C2 theorem.) -/
theorem unavailable_maps_to_503 (env : BackendEnv) (m : Metrics)
    (bs : BrokerState) (st : CacheState) (db : List UserRow) (now : Nat)
    (key value : String) (req : MessageRequest)
    (hdb : env.dbConnects = false) (hr : env.redisConnects = false)
    (hq : env.rabbitConnects = false) :
    get_db_connection env = none
    ∧ get_redis_connection env = none
    ∧ get_rabbitmq_connection env = none
    ∧ send_message env m bs now req =
        (incRequestCount m "POST" "/messages", bs,
          .err ⟨503, "RabbitMQ service unavailable"⟩)
    ∧ get_cache env m st now key =
        (incRequestCount m "GET" "/cache", st,
          .err ⟨503, "Redis service unavailable"⟩)
    ∧ set_cache env m st now key value =
        (incRequestCount m "POST" "/cache", st,
          .err ⟨503, "Redis service unavailable"⟩)
    ∧ get_users env m db =
        (incRequestCount m "GET" "/database/users",
          .err ⟨503, "Database service unavailable"⟩) := by
  refine ⟨?_, ?_, ?_, ?_, ?_, ?_, ?_⟩ <;>
    simp [get_db_connection, get_redis_connection, get_rabbitmq_connection,
      send_message, get_cache, set_cache, get_users, hdb, hr, hq]

/-- C9 witness: the statement evaluated in the environment where no backend
connection can be established, on concrete states. -/
theorem unavailable_maps_to_503_witness :
    get_db_connection envNone = none
    ∧ get_redis_connection envNone = none
    ∧ get_rabbitmq_connection envNone = none
    ∧ send_message envNone m0 bs0 0 { message := "hi" } =
        (incRequestCount m0 "POST" "/messages", bs0,
          .err ⟨503, "RabbitMQ service unavailable"⟩)
    ∧ get_cache envNone m0 [] 0 "k" =
        (incRequestCount m0 "GET" "/cache", [],
          .err ⟨503, "Redis service unavailable"⟩)
    ∧ set_cache envNone m0 [] 0 "k" "v" =
        (incRequestCount m0 "POST" "/cache", [],
          .err ⟨503, "Redis service unavailable"⟩)
    ∧ get_users envNone m0 db0 =
        (incRequestCount m0 "GET" "/database/users",
          .err ⟨503, "Database service unavailable"⟩) :=
  unavailable_maps_to_503 envNone m0 bs0 [] db0 0 "k" "v"
    { message := "hi" } rfl rfl rfl

/-- C10: `GET /cache/{key}` is a pure read of the cache backend: on every
path of the handler — backend unreachable, key found, key absent, read
failure — the cache contents (every key's value and expiry) are returned
unchanged. -/
theorem get_cache_preserves_cache (env : BackendEnv) (m : Metrics)
    (st : CacheState) (now : Nat) (key : String) :
    (get_cache env m st now key).2.1 = st := by
  unfold get_cache
  cases get_redis_connection env with
  | none => rfl
  | some u =>
    dsimp only
    cases get_cache_try env st now key with
    | ok r => rfl
    | error e => rfl

end HomelabAPI
